import Mathlib

/-!
Shallow embedding of two Home Assistant sensor platform modules:

* `homeassistant/components/whirlpool/sensor.py` — washer/dryer status
  resolution (`washer_state`), the dispenser fill-level lookup
  (`TANK_FILL`), and the completion-timestamp updater
  (`WasherDryerTimeClass.update_from_latest_data`).
* `homeassistant/components/devolo_home_network/sensor.py` — the three
  network metric value functions of `SENSOR_TYPES`.

Modelling conventions:
* The vendor SDK enum `MachineState` (an external library, not part of the
  repository) is modelled by its numeric member values: 19 distinct `Nat`
  codes, one per member named in the `MACHINE_STATE` table. Dictionary
  lookup keyed on enum members becomes association-list lookup keyed on
  the codes (member identity coincides with value equality for the enum).
* `get_attribute` returns `Option String` (`none` models Python `None`).
* The six cycle sub-status queries are boolean fields of the client model,
  so `CYCLE_FUNC` holds the accessor functions exactly as the source holds
  the unbound SDK methods.
* Datetimes are integer seconds: `utcnow()` becomes a parameter
  `now : Int`, and `now + timedelta(seconds=s)` becomes `now + s`.
* Python `int(...)` on the remaining-time attribute is `pyInt` (an
  optional sign followed by decimal digits); a raised
  `ValueError`/`TypeError` (attribute missing or non-numeric) is modelled
  by the updater returning `none`.
-/

namespace Whirlpool

/- Numeric codes of the vendor `MachineState` enum members (modelled; the
enum lives in the external `whirlpool` SDK). Only distinctness of the codes
matters to the code under verification. -/
namespace MachineState

def Standby : Nat := 0

def Setting : Nat := 1

def DelayCountdownMode : Nat := 2

def DelayPause : Nat := 3

def SmartDelay : Nat := 4

def SmartGridPause : Nat := 5

def Pause : Nat := 6

def RunningMainCycle : Nat := 7

def RunningPostCycle : Nat := 8

def Exceptions : Nat := 9

def Complete : Nat := 10

def PowerFailure : Nat := 11

def ServiceDiagnostic : Nat := 12

def FactoryDiagnostic : Nat := 13

def LifeTest : Nat := 14

def CustomerFocusMode : Nat := 15

def DemoMode : Nat := 16

def HardStopOrError : Nat := 17

def SystemInit : Nat := 18

end MachineState

/-- `homeassistant.const.STATE_UNKNOWN`. -/
def STATE_UNKNOWN : String := "unknown"

/-- The `TANK_FILL` table (sensor.py lines 28–35). -/
def TANK_FILL : List (String × String) :=
  [("0", "Unknown"),
   ("1", "Empty"),
   ("2", "25%"),
   ("3", "50%"),
   ("4", "100%"),
   ("5", "Active")]

/-- The `MACHINE_STATE` table (sensor.py lines 37–57), keyed by the
modelled enum codes. -/
def MACHINE_STATE : List (Nat × String) :=
  [(MachineState.Standby, "Standby"),
   (MachineState.Setting, "Setting"),
   (MachineState.DelayCountdownMode, "Delay Countdown"),
   (MachineState.DelayPause, "Delay Paused"),
   (MachineState.SmartDelay, "Smart Delay"),
   (MachineState.SmartGridPause, "Smart Grid Pause"),
   (MachineState.Pause, "Pause"),
   (MachineState.RunningMainCycle, "Running Maincycle"),
   (MachineState.RunningPostCycle, "Running Postcycle"),
   (MachineState.Exceptions, "Exception"),
   (MachineState.Complete, "Complete"),
   (MachineState.PowerFailure, "Power Failure"),
   (MachineState.ServiceDiagnostic, "Service Diagnostic Mode"),
   (MachineState.FactoryDiagnostic, "Factory Diagnostic Mode"),
   (MachineState.LifeTest, "Life Test"),
   (MachineState.CustomerFocusMode, "Customer Focus Mode"),
   (MachineState.DemoMode, "Demo Mode"),
   (MachineState.HardStopOrError, "Hard Stop or Error"),
   (MachineState.SystemInit, "System Initialize")]

/-- Model of the vendor `WasherDryer` client state: named attributes, the
machine-state code, and the six cycle sub-status queries. -/
structure WasherDryer where
  attributes : String → Option String
  machine_state : Nat
  get_cycle_status_filling : Bool
  get_cycle_status_rinsing : Bool
  get_cycle_status_sensing : Bool
  get_cycle_status_soaking : Bool
  get_cycle_status_spinning : Bool
  get_cycle_status_washing : Bool

/-- `WasherDryer.get_attribute` of the SDK client. -/
def WasherDryer.get_attribute (w : WasherDryer) (k : String) : Option String :=
  w.attributes k

/-- `WasherDryer.get_machine_state` of the SDK client. -/
def WasherDryer.get_machine_state (w : WasherDryer) : Nat :=
  w.machine_state

/-- The `CYCLE_FUNC` list of (predicate, label) pairs (sensor.py lines
59–66). -/
def CYCLE_FUNC : List ((WasherDryer → Bool) × String) :=
  [(WasherDryer.get_cycle_status_filling, "Cycle Filling"),
   (WasherDryer.get_cycle_status_rinsing, "Cycle Rinsing"),
   (WasherDryer.get_cycle_status_sensing, "Cycle Sensing"),
   (WasherDryer.get_cycle_status_soaking, "Cycle Soaking"),
   (WasherDryer.get_cycle_status_spinning, "Cycle Spinning"),
   (WasherDryer.get_cycle_status_washing, "Cycle Washing")]

/-- The `for func, cycle_name in CYCLE_FUNC` loop of `washer_state`
(lines 84–86): first predicate that holds wins, `none` if none holds. -/
def findCycle (washer : WasherDryer) :
    List ((WasherDryer → Bool) × String) → Option String
  | [] => none
  | (func, cycle_name) :: rest =>
      if func washer then some cycle_name else findCycle washer rest

/-- Lines 81–88 of `washer_state`: everything after the door check. The
`for` loop runs only when the machine state is `RunningMainCycle`; when it
returns nothing, the function falls through to
`MACHINE_STATE.get(machine_state, STATE_UNKNOWN)`. -/
def machine_state_resolution (washer : WasherDryer) : String :=
  match (if washer.get_machine_state = MachineState.RunningMainCycle then
      findCycle washer CYCLE_FUNC
    else none) with
  | some cycle_name => cycle_name
  | none =>
      (List.lookup washer.get_machine_state MACHINE_STATE).getD STATE_UNKNOWN

/-- `washer_state` (sensor.py lines 75–88). -/
def washer_state (washer : WasherDryer) : String :=
  if washer.get_attribute "Cavity_OpStatusDoorOpen" = some "1" then
    "Door open"
  else
    machine_state_resolution washer

/-- The `value_fn` of the `DispenseLevel` sensor description (lines
118–120): `TANK_FILL[washer.get_attribute(...)]`. The Python `KeyError`
raised on a code outside the table (and the `KeyError` on a missing /
`None` attribute) is modelled by `none`. -/
def dispense_level_value_fn (washer : WasherDryer) : Option String :=
  (washer.get_attribute "WashCavity_OpStatusBulkDispense1Level").bind
    (fun code => List.lookup code TANK_FILL)

/-- Digit run of a decimal literal: `none` on an empty run or a non-digit
character. -/
def pyDigitsAux : List Char → Nat → Option Nat
  | [], acc => some acc
  | c :: cs, acc =>
      if c.isDigit then pyDigitsAux cs (acc * 10 + (c.toNat - 48)) else none

/-- Decimal digit parsing for `pyInt`; an empty digit run is rejected. -/
def pyDigits : List Char → Option Nat
  | [] => none
  | c :: cs => pyDigitsAux (c :: cs) 0

/-- Modelled from the spec: Python's builtin `int(...)` applied to the
vendor-reported remaining-seconds string (the spec assumes the field is
"always present and numeric while running"). An optional sign followed by
decimal digits; `none` models the raised `ValueError`. Whitespace
stripping and other Python literal niceties are not modelled. -/
def pyInt (s : String) : Option Int :=
  match s.data with
  | '-' :: cs => (pyDigits cs).map (fun n => -(n : Int))
  | '+' :: cs => (pyDigits cs).map (fun n => (n : Int))
  | cs => (pyDigits cs).map (fun n => (n : Int))

/-- The mutable state of `WasherDryerTimeClass` touched by
`update_from_latest_data`: `_running : bool | None` (initially `None`) and
`_attr_native_value` (the stored timestamp, initially unset/restored). -/
structure WasherDryerTimeClass where
  running : Option Bool
  attr_native_value : Option Int

/-- `WasherDryerTimeClass.update_from_latest_data` (sensor.py lines
267–287). `now` is the value of `utcnow()` at the call; the result is the
post-call entity state, or `none` when `int(...)` on the remaining-time
attribute raises (attribute absent or non-numeric while running). The two
`if` statements of the source run in sequence on the same state. -/
def update_from_latest_data (wd : WasherDryer) (now : Int)
    (st : WasherDryerTimeClass) : Option WasherDryerTimeClass :=
  let machine_state := wd.get_machine_state
  let st1 :=
    if [MachineState.Complete, MachineState.Standby].contains machine_state
        && st.running.getD false then
      WasherDryerTimeClass.mk (some false) (some now)
    else st
  if machine_state = MachineState.RunningMainCycle then
    match (wd.get_attribute "Cavity_TimeStatusEstTimeRemaining").bind
        pyInt with
    | some secs => some (WasherDryerTimeClass.mk (some true) (some (now + secs)))
    | none => none
  else
    some st1

/-- Attribute tables for concrete sample clients. -/
def sample_attributes (pairs : List (String × String)) : String → Option String :=
  fun k => List.lookup k pairs

/-- Sample client: running the main cycle, 600 s remaining, no sub-status. -/
def wd_running_600 : WasherDryer :=
  WasherDryer.mk (sample_attributes [("Cavity_TimeStatusEstTimeRemaining", "600")])
    MachineState.RunningMainCycle false false false false false false

/-- Sample client: running the main cycle, 300 s remaining, no sub-status. -/
def wd_running_300 : WasherDryer :=
  WasherDryer.mk (sample_attributes [("Cavity_TimeStatusEstTimeRemaining", "300")])
    MachineState.RunningMainCycle false false false false false false

/-- Sample client: machine state Complete, no attributes set. -/
def wd_complete : WasherDryer :=
  WasherDryer.mk (sample_attributes []) MachineState.Complete
    false false false false false false

/-- Sample client: door open while running with an active sub-status. -/
def wd_door_open : WasherDryer :=
  WasherDryer.mk (sample_attributes [("Cavity_OpStatusDoorOpen", "1")])
    MachineState.RunningMainCycle true false false false false false

/-- Sample client: door attribute reads "0", machine state Pause. -/
def wd_door_zero : WasherDryer :=
  WasherDryer.mk (sample_attributes [("Cavity_OpStatusDoorOpen", "0")])
    MachineState.Pause false false false false false false

/-- Sample client: running with two sub-status flags true (rinsing and
spinning). -/
def wd_two_flags : WasherDryer :=
  WasherDryer.mk (sample_attributes []) MachineState.RunningMainCycle
    false true false false true false

/-- Sample client: machine-state code 99, absent from `MACHINE_STATE`. -/
def wd_code_99 : WasherDryer :=
  WasherDryer.mk (sample_attributes []) 99 false false false false false false

/-- Sample client: dispenser fill-level code "2". -/
def wd_dispense_2 : WasherDryer :=
  WasherDryer.mk (sample_attributes [("WashCavity_OpStatusBulkDispense1Level", "2")])
    MachineState.Standby false false false false false false

/-- Sample client: dispenser fill-level code "9", outside the table. -/
def wd_dispense_9 : WasherDryer :=
  WasherDryer.mk (sample_attributes [("WashCavity_OpStatusBulkDispense1Level", "9")])
    MachineState.Standby false false false false false false

/-- Sample entity state: fresh entity (`_running = None`, no value). -/
def st_fresh : WasherDryerTimeClass :=
  WasherDryerTimeClass.mk none none

/-- Sample entity state: previously running, stored timestamp 1000. -/
def st_was_running : WasherDryerTimeClass :=
  WasherDryerTimeClass.mk (some true) (some 1000)

/-- Sample entity state: already finished, stored timestamp 1000. -/
def st_finished : WasherDryerTimeClass :=
  WasherDryerTimeClass.mk (some false) (some 1000)

end Whirlpool

namespace Devolo

/-- One data-rate record of the PLC network snapshot (the fields the code
reads). -/
structure DataRate where
  mac_address_from : String
  mac_address_to : String

/-- `LogicalNetwork` snapshot: the code only reads `data_rates`. -/
structure LogicalNetwork where
  data_rates : List DataRate

/-- A connected Wi-Fi station record; only the list length is consumed. -/
structure ConnectedStationInfo where
  mac_address : String

/-- A neighboring access-point record; only the list length is consumed. -/
structure NeighborAPInfo where
  ssid : String

/-- `value_func` of the connected-PLC-devices metric (sensor.py lines
62–64): `len({device.mac_address_from for device in data.data_rates})`. -/
def connected_plc_devices_value (data : LogicalNetwork) : Nat :=
  ((data.data_rates.map DataRate.mac_address_from).toFinset).card

/-- `value_func` of the connected-Wi-Fi-clients metric (line 72): `len`. -/
def connected_wifi_clients_value (stations : List ConnectedStationInfo) : Nat :=
  stations.length

/-- `value_func` of the neighboring-Wi-Fi-networks metric (line 80):
`len`. -/
def neighboring_wifi_networks_value (neighbors : List NeighborAPInfo) : Nat :=
  neighbors.length

end Devolo

namespace Whirlpool

/-- A value produced by the `CYCLE_FUNC` loop is one of the labels stored
in the list. -/
theorem findCycle_mem {w : WasherDryer} :
    ∀ {l : List ((WasherDryer → Bool) × String)} {s : String},
      findCycle w l = some s → s ∈ l.map Prod.snd := by
  intro l
  induction l with
  | nil => intro s h; simp [findCycle] at h
  | cons p rest ih =>
    intro s h
    obtain ⟨func, name⟩ := p
    rw [findCycle] at h
    by_cases hf : func w
    · rw [if_pos hf] at h
      simp at h
      simp [h]
    · rw [if_neg hf] at h
      simpa using Or.inr (ih h)

/-- A successful association-list lookup returns one of the stored
values. -/
theorem lookup_mem_snd {α β : Type} [BEq α] :
    ∀ {l : List (α × β)} {a : α} {v : β},
      List.lookup a l = some v → v ∈ l.map Prod.snd := by
  intro l
  induction l with
  | nil => intro a v h; simp [List.lookup] at h
  | cons p rest ih =>
    intro a v h
    obtain ⟨k, b⟩ := p
    rw [List.lookup] at h
    cases hk : a == k with
    | true => rw [hk] at h; simp at h; simp [h]
    | false => rw [hk] at h; simpa using Or.inr (ih h)

/-- The machine-state based resolution (cycle labels, the static table, or
the unknown sentinel) never produces the door-open string. -/
theorem machine_state_resolution_ne_door_open (w : WasherDryer) :
    machine_state_resolution w ≠ "Door open" := by
  unfold machine_state_resolution
  split
  · next name heq =>
    have hm : name ∈ CYCLE_FUNC.map Prod.snd := by
      by_cases h : w.get_machine_state = MachineState.RunningMainCycle
      · rw [if_pos h] at heq; exact findCycle_mem heq
      · rw [if_neg h] at heq; cases heq
    have : ∀ x ∈ CYCLE_FUNC.map Prod.snd, x ≠ "Door open" := by
      intro x hx
      simp [CYCLE_FUNC] at hx
      rcases hx with h|h|h|h|h|h <;> subst h <;> decide
    exact this name hm
  · next heq =>
    cases hl : List.lookup w.get_machine_state MACHINE_STATE with
    | none => simp [hl, STATE_UNKNOWN]
    | some v =>
      have hv : v ∈ MACHINE_STATE.map Prod.snd := lookup_mem_snd hl
      have : ∀ x ∈ MACHINE_STATE.map Prod.snd, x ≠ "Door open" := by decide
      simp [hl]
      exact this v hv

end Whirlpool

namespace Whirlpool

/-- With the door closed and the machine running the main cycle,
`washer_state` is the first-true-wins probe of the six sub-status
predicates in the `CYCLE_FUNC` order, falling through to the static table
entry for running-main-cycle. -/
theorem washer_state_running_probe (wd : WasherDryer)
    (hdoor : wd.get_attribute "Cavity_OpStatusDoorOpen" ≠ some "1")
    (hms : wd.get_machine_state = MachineState.RunningMainCycle) :
    washer_state wd =
      (if wd.get_cycle_status_filling then "Cycle Filling"
       else if wd.get_cycle_status_rinsing then "Cycle Rinsing"
       else if wd.get_cycle_status_sensing then "Cycle Sensing"
       else if wd.get_cycle_status_soaking then "Cycle Soaking"
       else if wd.get_cycle_status_spinning then "Cycle Spinning"
       else if wd.get_cycle_status_washing then "Cycle Washing"
       else "Running Maincycle") := by
  rw [washer_state, if_neg hdoor, machine_state_resolution, if_pos hms]
  cases h1 : wd.get_cycle_status_filling <;>
    cases h2 : wd.get_cycle_status_rinsing <;>
    cases h3 : wd.get_cycle_status_sensing <;>
    cases h4 : wd.get_cycle_status_soaking <;>
    cases h5 : wd.get_cycle_status_spinning <;>
    cases h6 : wd.get_cycle_status_washing <;>
    simp [findCycle, CYCLE_FUNC, h1, h2, h3, h4, h5, h6, hms, MACHINE_STATE,
      List.lookup] <;> decide

/-- C4: whenever the door-open attribute reads "1", `washer_state` returns
"Door open", regardless of the machine state and of any sub-status
predicate. -/
theorem claim_C4_door_open_preempts (wd : WasherDryer)
    (h : wd.get_attribute "Cavity_OpStatusDoorOpen" = some "1") :
    washer_state wd = "Door open" := by
  simp [washer_state, h]

/-- C4 witness: a client with the door open while running the main cycle
with an active filling sub-status still reads "Door open". -/
theorem claim_C4_witness : washer_state wd_door_open = "Door open" :=
  claim_C4_door_open_preempts wd_door_open (by decide)

/-- C5: with the door not open and the machine state running-main-cycle,
`washer_state` probes the six sub-status predicates in the fixed order
filling, rinsing, sensing, soaking, spinning, washing and returns the label
of the first one that holds (falling through to the static table when none
does), so when several hold simultaneously the earliest in that order
wins. -/
theorem claim_C5_cycle_probe_order (wd : WasherDryer)
    (hdoor : wd.get_attribute "Cavity_OpStatusDoorOpen" ≠ some "1")
    (hms : wd.get_machine_state = MachineState.RunningMainCycle) :
    washer_state wd =
      (if wd.get_cycle_status_filling then "Cycle Filling"
       else if wd.get_cycle_status_rinsing then "Cycle Rinsing"
       else if wd.get_cycle_status_sensing then "Cycle Sensing"
       else if wd.get_cycle_status_soaking then "Cycle Soaking"
       else if wd.get_cycle_status_spinning then "Cycle Spinning"
       else if wd.get_cycle_status_washing then "Cycle Washing"
       else "Running Maincycle") :=
  washer_state_running_probe wd hdoor hms

/-- C5 witness: rinsing and spinning simultaneously true while running
resolves to "Cycle Rinsing", the earlier label in the fixed order. -/
theorem claim_C5_witness : washer_state wd_two_flags = "Cycle Rinsing" :=
  (claim_C5_cycle_probe_order wd_two_flags (by decide) rfl).trans (by decide)

/-- C6: with the door not open, machine state running-main-cycle, and all
six sub-status predicates false, `washer_state` falls through to the static
table, which maps running-main-cycle to "Running Maincycle". -/
theorem claim_C6_running_fallthrough (wd : WasherDryer)
    (hdoor : wd.get_attribute "Cavity_OpStatusDoorOpen" ≠ some "1")
    (hms : wd.get_machine_state = MachineState.RunningMainCycle)
    (h1 : wd.get_cycle_status_filling = false)
    (h2 : wd.get_cycle_status_rinsing = false)
    (h3 : wd.get_cycle_status_sensing = false)
    (h4 : wd.get_cycle_status_soaking = false)
    (h5 : wd.get_cycle_status_spinning = false)
    (h6 : wd.get_cycle_status_washing = false) :
    washer_state wd = "Running Maincycle" := by
  rw [washer_state_running_probe wd hdoor hms]
  simp [h1, h2, h3, h4, h5, h6]

/-- C6 witness: the running sample client with no true sub-status flag
reads "Running Maincycle". -/
theorem claim_C6_witness : washer_state wd_running_600 = "Running Maincycle" :=
  claim_C6_running_fallthrough wd_running_600 (by decide) rfl
    rfl rfl rfl rfl rfl rfl

/-- C7: with the door not open, a machine-state code absent from the
static `MACHINE_STATE` table resolves to the "unknown" sentinel instead of
failing. -/
theorem claim_C7_unknown_sentinel (wd : WasherDryer)
    (hdoor : wd.get_attribute "Cavity_OpStatusDoorOpen" ≠ some "1")
    (habs : List.lookup wd.get_machine_state MACHINE_STATE = none) :
    washer_state wd = STATE_UNKNOWN := by
  have hne : wd.get_machine_state ≠ MachineState.RunningMainCycle := by
    intro h
    rw [h] at habs
    exact absurd habs (by decide)
  rw [washer_state, if_neg hdoor, machine_state_resolution, if_neg hne]
  simp [habs]

/-- C7 witness: machine-state code 99 is not in the table and resolves to
"unknown". -/
theorem claim_C7_witness : washer_state wd_code_99 = STATE_UNKNOWN :=
  claim_C7_unknown_sentinel wd_code_99 (by decide) (by decide)

/-- C10: the door-open check fires only on the exact string "1": for any
other attribute reading (including a missing attribute) `washer_state`
resolves the status from the machine state and never returns
"Door open". -/
theorem claim_C10_door_exact_match (wd : WasherDryer)
    (h : wd.get_attribute "Cavity_OpStatusDoorOpen" ≠ some "1") :
    washer_state wd = machine_state_resolution wd ∧
      washer_state wd ≠ "Door open" := by
  have he : washer_state wd = machine_state_resolution wd := by
    rw [washer_state, if_neg h]
  exact ⟨he, he ▸ machine_state_resolution_ne_door_open wd⟩

/-- C10 witness: a door attribute reading "0" resolves from the machine
state (Pause) and is not "Door open". -/
theorem claim_C10_witness :
    washer_state wd_door_zero = machine_state_resolution wd_door_zero ∧
      washer_state wd_door_zero ≠ "Door open" :=
  claim_C10_door_exact_match wd_door_zero (by decide)

end Whirlpool

namespace Whirlpool

/-- Every push while running the main cycle stores `now + remaining`. -/
theorem update_running_stores (w : WasherDryer) (t : Int)
    (q : WasherDryerTimeClass) (str : String) (k : Int)
    (h1 : w.get_machine_state = MachineState.RunningMainCycle)
    (h2 : w.get_attribute "Cavity_TimeStatusEstTimeRemaining" = some str)
    (h3 : pyInt str = some k) :
    update_from_latest_data w t q =
      some (WasherDryerTimeClass.mk (some true) (some (t + k))) := by
  simp [update_from_latest_data, h1, h2, h3, MachineState.RunningMainCycle,
    MachineState.Complete, MachineState.Standby]

/-- C1: on every push with the machine state running-main-cycle, the
updater sets `running := true` and stores the update instant plus the
parsed remaining-seconds attribute; the value is recomputed on each such
push, so a second push 5 s later reporting 300 s (after a 600 s estimate)
stores an earlier instant. -/
theorem claim_C1_running_recompute (wd : WasherDryer)
    (st : WasherDryerTimeClass) (now r : Int) (s : String)
    (hms : wd.get_machine_state = MachineState.RunningMainCycle)
    (hattr : wd.get_attribute "Cavity_TimeStatusEstTimeRemaining" = some s)
    (hr : pyInt s = some r) :
    update_from_latest_data wd now st =
      some (WasherDryerTimeClass.mk (some true) (some (now + r))) ∧
    ∀ (wd2 : WasherDryer) (st2 : WasherDryerTimeClass),
      wd2.get_machine_state = MachineState.RunningMainCycle →
      wd2.get_attribute "Cavity_TimeStatusEstTimeRemaining" = some "300" →
      r = 600 →
      update_from_latest_data wd2 (now + 5) st2 =
        some (WasherDryerTimeClass.mk (some true) (some (now + 5 + 300))) ∧
      now + 5 + 300 < now + r := by
  refine ⟨update_running_stores wd now st s r hms hattr hr, ?_⟩
  intro wd2 st2 h1 h2 hr600
  have h300 : pyInt "300" = some 300 := by decide
  refine ⟨update_running_stores wd2 (now + 5) st2 "300" 300 h1 h2 h300, ?_⟩
  rw [hr600]
  omega

/-- C1 witness: a 600 s estimate at instant 0 stores 600; a 300 s estimate
at instant 5 stores 305, which is earlier. -/
theorem claim_C1_witness :
    update_from_latest_data wd_running_600 0 st_fresh =
      some (WasherDryerTimeClass.mk (some true) (some (0 + 600))) ∧
    (update_from_latest_data wd_running_300 (0 + 5) st_fresh =
      some (WasherDryerTimeClass.mk (some true) (some (0 + 5 + 300))) ∧
      (0 : Int) + 5 + 300 < 0 + 600) := by
  have h := claim_C1_running_recompute wd_running_600 st_fresh 0 600 "600"
    rfl (by decide) (by decide)
  exact ⟨h.1, h.2 wd_running_300 st_fresh rfl (by decide) rfl⟩

/-- C2: a push with machine state complete or standby while the running
flag was true clears the flag and stores exactly the push-arrival instant,
independent of any vendor-supplied value. -/
theorem claim_C2_finish_stores_now (wd : WasherDryer)
    (st : WasherDryerTimeClass) (now : Int)
    (hms : wd.get_machine_state = MachineState.Complete ∨
      wd.get_machine_state = MachineState.Standby)
    (hrun : st.running = some true) :
    update_from_latest_data wd now st =
      some (WasherDryerTimeClass.mk (some false) (some now)) := by
  rcases hms with h | h <;>
    simp [update_from_latest_data, h, hrun, MachineState.Complete,
      MachineState.Standby, MachineState.RunningMainCycle]

/-- C2 witness: a Complete push at instant 50 with prior `running = true`
stores 50 and clears the flag. -/
theorem claim_C2_witness :
    update_from_latest_data wd_complete 50 st_was_running =
      some (WasherDryerTimeClass.mk (some false) (some 50)) :=
  claim_C2_finish_stores_now wd_complete st_was_running 50 (Or.inl rfl) rfl

/-- C3: a push whose machine state is neither running-main-cycle nor
(complete-or-standby with the running flag previously true) leaves the
entity state — stored timestamp and running flag — unchanged; in
particular a complete/standby push after the flag was already cleared does
not recompute the timestamp. -/
theorem claim_C3_other_states_frame (wd : WasherDryer)
    (st : WasherDryerTimeClass) (now : Int)
    (h1 : wd.get_machine_state ≠ MachineState.RunningMainCycle)
    (h2 : ¬((wd.get_machine_state = MachineState.Complete ∨
        wd.get_machine_state = MachineState.Standby) ∧
        st.running = some true)) :
    update_from_latest_data wd now st = some st := by
  have hcond : ([MachineState.Complete, MachineState.Standby].contains
      wd.get_machine_state && st.running.getD false) = false := by
    by_cases hm : wd.get_machine_state = MachineState.Complete ∨
        wd.get_machine_state = MachineState.Standby
    · have hr : st.running ≠ some true := fun hr => h2 ⟨hm, hr⟩
      have hgd : st.running.getD false = false := by
        cases hst : st.running with
        | none => rfl
        | some b =>
          cases b with
          | false => rfl
          | true => exact absurd hst hr
      simp [hgd]
    · have hmem : wd.get_machine_state ∉
          [MachineState.Complete, MachineState.Standby] := by
        simpa using hm
      simp [hmem]
  simp only [update_from_latest_data]
  rw [if_neg h1, hcond]
  simp

/-- C3 witness: a Complete push at instant 77 after the flag was already
cleared leaves the finished state (timestamp 1000) untouched. -/
theorem claim_C3_witness :
    update_from_latest_data wd_complete 77 st_finished = some st_finished :=
  claim_C3_other_states_frame wd_complete st_finished 77 (by decide) (by decide)

/-- C8: the dispenser fill-level value function is a direct lookup of the
string-coded attribute in the six-entry `TANK_FILL` table ("0" through
"5"); any code outside that set — and a missing attribute — has no table
entry, so the lookup fails (modelled as `none`, the propagated
`KeyError`). -/
theorem claim_C8_tank_fill_lookup :
    (List.lookup "0" TANK_FILL = some "Unknown" ∧
     List.lookup "1" TANK_FILL = some "Empty" ∧
     List.lookup "2" TANK_FILL = some "25%" ∧
     List.lookup "3" TANK_FILL = some "50%" ∧
     List.lookup "4" TANK_FILL = some "100%" ∧
     List.lookup "5" TANK_FILL = some "Active") ∧
    (∀ (wd : WasherDryer) (code : String),
      wd.get_attribute "WashCavity_OpStatusBulkDispense1Level" = some code →
      dispense_level_value_fn wd = List.lookup code TANK_FILL) ∧
    (∀ code : String, code ∉ ["0", "1", "2", "3", "4", "5"] →
      List.lookup code TANK_FILL = none) ∧
    (∀ wd : WasherDryer,
      wd.get_attribute "WashCavity_OpStatusBulkDispense1Level" = none →
      dispense_level_value_fn wd = none) := by
  refine ⟨⟨by decide, by decide, by decide, by decide, by decide, by decide⟩,
    ?_, ?_, ?_⟩
  · intro wd code h
    simp [dispense_level_value_fn, h]
  · intro code hmem
    simp only [List.mem_cons, List.not_mem_nil, or_false] at hmem
    push_neg at hmem
    obtain ⟨h0, h1, h2, h3, h4, h5⟩ := hmem
    simp [TANK_FILL, List.lookup, beq_eq_false_iff_ne.mpr h0,
      beq_eq_false_iff_ne.mpr h1, beq_eq_false_iff_ne.mpr h2,
      beq_eq_false_iff_ne.mpr h3, beq_eq_false_iff_ne.mpr h4,
      beq_eq_false_iff_ne.mpr h5]
  · intro wd h
    simp [dispense_level_value_fn, h]

/-- C8 witness: code "2" resolves to "25%", while the out-of-table code
"9" makes the lookup fail. -/
theorem claim_C8_witness :
    dispense_level_value_fn wd_dispense_2 = some "25%" ∧
      dispense_level_value_fn wd_dispense_9 = none := by
  have h := claim_C8_tank_fill_lookup
  constructor
  · rw [h.2.1 wd_dispense_2 "2" (by decide)]
    decide
  · rw [h.2.1 wd_dispense_9 "9" (by decide)]
    exact h.2.2.1 "9" (by decide)

end Whirlpool

/-- C9: the three network metric value functions return, respectively, the
number of distinct source addresses across the snapshot's data-rate
records (duplicates collapsed), the length of the connected-station list,
and the length of the neighboring-access-point list. -/
theorem claim_C9_network_metrics :
    (∀ data : Devolo.LogicalNetwork,
      Devolo.connected_plc_devices_value data =
        ((data.data_rates.map Devolo.DataRate.mac_address_from).dedup).length) ∧
    (∀ stations : List Devolo.ConnectedStationInfo,
      Devolo.connected_wifi_clients_value stations = stations.length) ∧
    (∀ neighbors : List Devolo.NeighborAPInfo,
      Devolo.neighboring_wifi_networks_value neighbors = neighbors.length) := by
  refine ⟨?_, fun _ => rfl, fun _ => rfl⟩
  intro data
  exact List.card_toFinset _

/-- C9 witness: a snapshot with source addresses A, A, B, C counts 3
powerline devices; two stations and one neighbor count 2 and 1. -/
theorem claim_C9_witness :
    Devolo.connected_plc_devices_value (Devolo.LogicalNetwork.mk
      [Devolo.DataRate.mk "A" "X", Devolo.DataRate.mk "A" "Y",
       Devolo.DataRate.mk "B" "Z", Devolo.DataRate.mk "C" "W"]) = 3 ∧
    Devolo.connected_wifi_clients_value
      [Devolo.ConnectedStationInfo.mk "S1",
       Devolo.ConnectedStationInfo.mk "S2"] = 2 ∧
    Devolo.neighboring_wifi_networks_value
      [Devolo.NeighborAPInfo.mk "N1"] = 1 := by
  refine ⟨?_, ?_, ?_⟩
  · rw [claim_C9_network_metrics.1]
    decide
  · exact claim_C9_network_metrics.2.1 _
  · exact claim_C9_network_metrics.2.2 _
